import Mathlib

/-!
Shallow embedding of the hydrogen-atom orbital simulator (`src/main.cpp`).

The embedded core is the density-to-geometry pipeline: quantum-number
validation and supported-state dispatch (`main`, the `if`/`else if` chain),
the spherical-coordinate helpers (`r_of`, `theta_of`, `phi_of`), the ten
closed-form density functions (`_100_eq` .. `_322_eq`), the fixed 11x11x11
spatial grid, the density-to-radius/color mapping, the per-instance
UV-sphere tessellation, and the aggregation of all instances into one flat
vertex list and one flat index list.

Machine floats (`GLfloat`) are modelled as real numbers; `int` quantum
numbers as `Int`; loop indices as `Nat`.  Lists stand for the C++ vectors
and arrays, in the exact order the code pushes/copies elements.
-/

namespace HydrogenSim

/-- Embeds `const int sectorCount = 9;` (src/main.cpp:70). -/
def sectorCount : ℕ := 9

/-- Embeds `const int stackCount = 9;` (src/main.cpp:71). -/
def stackCount : ℕ := 9

/-- Embeds `const int NUM_VERTICES_PER_SPHERE = 100;` (src/main.cpp:72). -/
def NUM_VERTICES_PER_SPHERE : ℕ := 100

/-- Embeds `const int NUM_TRIANGLES_PER_SPHERE = 144;` (src/main.cpp:73). -/
def NUM_TRIANGLES_PER_SPHERE : ℕ := 144

/-- Embeds `const int numSpheres = pow(11,3);` (src/main.cpp:75). -/
def numSpheres : ℕ := 11 ^ 3

/-- Embeds `int numSpheres_per_side = cbrt(numSpheres);` (src/main.cpp:383);
`cbrt(1331) = 11` exactly. -/
def numSpheres_per_side : ℕ := 11

/-- Outcome of `main`'s input validation and supported-state dispatch:
either of the two terminal failures, or the index (0..9, in source order)
of the orbital branch whose geometry gets generated. -/
inductive RunResult where
  | invalidQuantumState
  | unsupportedQuantumState
  | geometry (branch : ℕ)
  deriving DecidableEq

/-- Embeds the validation check `if (l+1>n || abs(ml)>abs(l) || l<0)`
(src/main.cpp:338-341) followed by the supported-state `if`/`else if`
dispatch chain (src/main.cpp:391, 508, 625, 742, 859, 976, 1093, 1209,
1325, 1441) whose final `else` prints the unsupported message and returns
(src/main.cpp:1559-1562).  The branch conditions are copied in source
order. -/
def classify (n l ml : ℤ) : RunResult :=
  if l + 1 > n ∨ |ml| > |l| ∨ l < 0 then RunResult.invalidQuantumState
  else if n = 1 ∧ l = 0 ∧ ml = 0 then RunResult.geometry 0
  else if n = 2 ∧ l = 0 ∧ ml = 0 then RunResult.geometry 1
  else if n = 2 ∧ l = 1 ∧ ml = 0 then RunResult.geometry 2
  else if n = 2 ∧ l = 1 ∧ (ml = 1 ∨ ml = -1) then RunResult.geometry 3
  else if n = 3 ∧ l = 0 ∧ ml = 0 then RunResult.geometry 4
  else if n = 3 ∧ l = 1 ∧ ml = 0 then RunResult.geometry 5
  else if n = 3 ∧ l = 1 ∧ (ml = 1 ∨ ml = -1) then RunResult.geometry 6
  else if n = 3 ∧ l = 2 ∧ ml = 0 then RunResult.geometry 7
  else if n = 3 ∧ l = 2 ∧ (ml = 1 ∨ ml = -1) then RunResult.geometry 8
  else if n = 3 ∧ l = 2 ∧ (ml = 2 ∨ ml = -2) then RunResult.geometry 9
  else RunResult.unsupportedQuantumState

/-- Embeds the local triangle-index generation loop (src/main.cpp:1586-1623):
for each stack `i`, `k1 = i*(sectorCount+1)` and `k2 = k1+sectorCount+1`,
both advanced with `j`; triangles `(k1,k2,k1+1)` except on the first stack
and `(k1+1,k2,k2+1)` except on the last stack.  (`lineIndices` is unused by
the sphere pipeline and is not modelled.) -/
def singleSphere_IndicesVec : List ℕ :=
  (List.range stackCount).flatMap fun i =>
    (List.range sectorCount).flatMap fun j =>
      (if i ≠ 0 then
        [i * (sectorCount + 1) + j, i * (sectorCount + 1) + j + sectorCount + 1,
         i * (sectorCount + 1) + j + 1]
       else []) ++
      (if i ≠ stackCount - 1 then
        [i * (sectorCount + 1) + j + 1, i * (sectorCount + 1) + j + sectorCount + 1,
         i * (sectorCount + 1) + j + sectorCount + 1 + 1]
       else [])

/-- Embeds the aggregate index array fill loop (src/main.cpp:1629-1634):
`allSpheres_IndicesArr[i] = singleSphere_IndicesVec.at(i % size) +
NUM_VERTICES_PER_SPHERE * (i / size)` over
`count * singleSphere_IndicesVec.size()` entries. -/
def allSpheres_IndicesArr (count : ℕ) : List ℕ :=
  (List.range (count * singleSphere_IndicesVec.length)).map fun i =>
    singleSphere_IndicesVec.getD (i % singleSphere_IndicesVec.length) 0 +
      NUM_VERTICES_PER_SPHERE * (i / singleSphere_IndicesVec.length)

noncomputable section

/-- Embeds `const float PI = M_PI;` (src/main.cpp:67). -/
def PI : ℝ := Real.pi

/-- Embeds `GLfloat step = 10.00 / (numSpheres_per_side - 1);`
(src/main.cpp:384). -/
def step : ℝ := 10.00 / ((numSpheres_per_side - 1 : ℕ) : ℝ)

/-- Embeds the per-axis grid coordinate `-5.00f + (i * step)`
(src/main.cpp:399-401). -/
def gridCoord (i : ℕ) : ℝ := -5.00 + i * step

/-- Embeds the triple loop over grid centers (src/main.cpp:394-401):
outer `i` (x), middle `j` (y), inner `k` (z). -/
def gridCenters : List (ℝ × ℝ × ℝ) :=
  (List.range numSpheres_per_side).flatMap fun i =>
    (List.range numSpheres_per_side).flatMap fun j =>
      (List.range numSpheres_per_side).map fun k =>
        (gridCoord i, gridCoord j, gridCoord k)

/-- Embeds `GLfloat r_of (GLfloat x, GLfloat y, GLfloat z)`
(src/main.cpp:1882-1884). -/
def r_of (x y z : ℝ) : ℝ := Real.sqrt (x * x + y * y + z * z)

/-- Embeds `GLfloat theta_of (GLfloat x, GLfloat y, GLfloat z)`
(src/main.cpp:1885-1888): `acos(z / sqrt(x*x+y*y+z*z))`. -/
def theta_of (x y z : ℝ) : ℝ := Real.arccos (z / Real.sqrt (x * x + y * y + z * z))

/-- Embeds `GLfloat phi_of (GLfloat x, GLfloat y, GLfloat z)`
(src/main.cpp:1889-1891): `atan2(y, x)`, i.e. the argument of `x + i y`. -/
def phi_of (x y z : ℝ) : ℝ := Complex.arg (x + y * Complex.I)

/-- Embeds `_100_eq` (src/main.cpp:1898-1903); `max_prob_amp = 1.0f * pow(10, 0)`. -/
def _100_eq (r theta phi : ℝ) : ℝ :=
  (1 / (1.0 * (10 : ℝ) ^ (0 : ℕ)) * Real.exp (-r) / Real.sqrt PI) ^ 2

/-- Embeds `_200_eq` (src/main.cpp:1906-1911); `max_prob_amp = 1.0f * pow(10, -1)`. -/
def _200_eq (r theta phi : ℝ) : ℝ :=
  (1 / (1.0 * (10 : ℝ) ^ (-1 : ℤ)) * 1 / 8 / (2.0 * PI) ^ (0.5 : ℝ) * (2 - r) *
    Real.exp (-r / 2)) ^ 2

/-- Embeds `_210_eq` (src/main.cpp:1914-1919); `max_prob_amp = 8.7f * pow(10, -1)`. -/
def _210_eq (r theta phi : ℝ) : ℝ :=
  (1 / (8.7 * (10 : ℝ) ^ (-1 : ℤ)) * r * Real.exp (-r / 2) * Real.cos theta) ^ 2

/-- Embeds `_211_eq` (src/main.cpp:1922-1928); `max_prob_amp = 7.5 * pow(10, -1)`. -/
def _211_eq (r theta phi : ℝ) : ℝ :=
  (1 / (7.5 * (10 : ℝ) ^ (-1 : ℤ)) * r * Real.exp (-r / 2) * Real.sin theta) ^ 2

/-- Embeds `_300_eq` (src/main.cpp:1930-1935); `max_prob_amp = 25 * pow(10, -1)`. -/
def _300_eq (r theta phi : ℝ) : ℝ :=
  (1 / (25 * (10 : ℝ) ^ (-1 : ℤ)) * (27 - 18 * r + 2 * r * r) * Real.exp (-r / 2)) ^ 2

/-- Embeds `_310_eq` (src/main.cpp:1937-1942); `max_prob_amp = 4 * pow(10, 0)`. -/
def _310_eq (r theta phi : ℝ) : ℝ :=
  (1 / (4 * (10 : ℝ) ^ (0 : ℕ)) * (6 - r) * r * Real.exp (-r / 3) * Real.cos theta) ^ 2

/-- Embeds `_311_eq` (src/main.cpp:1944-1949); `max_prob_amp = 4.5 * pow(10, 0)`. -/
def _311_eq (r theta phi : ℝ) : ℝ :=
  (1 / (4.5 * (10 : ℝ) ^ (0 : ℕ)) * (6 - r) * r * Real.exp (-r / 3) * Real.sin theta) ^ 2

/-- Embeds `_320_eq` (src/main.cpp:1951-1956); `max_prob_amp = 92.f * pow(10, -1)`. -/
def _320_eq (r theta phi : ℝ) : ℝ :=
  (1 / (92 * (10 : ℝ) ^ (-1 : ℤ)) * r ^ 2 * Real.exp (-r / 3) *
    (3 * Real.cos theta ^ 2 - 1)) ^ 2

/-- Embeds `_321_eq` (src/main.cpp:1958-1963); `max_prob_amp = 25.f * pow(10, -1)`. -/
def _321_eq (r theta phi : ℝ) : ℝ :=
  (1 / (25 * (10 : ℝ) ^ (-1 : ℤ)) * r ^ 2 * Real.exp (-r / 3) * Real.sin theta *
    Real.cos theta) ^ 2

/-- Embeds `_322_eq` (src/main.cpp:1965-1970); `max_prob_amp = 48.f * pow(10, -1)`. -/
def _322_eq (r theta phi : ℝ) : ℝ :=
  (1 / (48 * (10 : ℝ) ^ (-1 : ℤ)) * r ^ 2 * Real.exp (-r / 3) * Real.sin theta ^ 2) ^ 2

/-- The per-branch density evaluation at a grid center, one arm per source
branch and in source order: each branch computes `r_of`, `theta_of`,
`phi_of` of the center and calls its density function with the branch's
radial rescaling (src/main.cpp:408, 525, 642, 759, 876, 993, 1110, 1226,
1342, 1458).  The catch-all arm is branch 9 (`_322_eq`, src/main.cpp:1458);
`classify` only ever produces branches 0..9. -/
def branchDensityAt (b : ℕ) (x y z : ℝ) : ℝ :=
  match b with
  | 0 => _100_eq (r_of x y z / 5.0) (theta_of x y z) (phi_of x y z)
  | 1 => _200_eq (r_of x y z / 2.5) (theta_of x y z) (phi_of x y z)
  | 2 => _210_eq (r_of x y z) (theta_of x y z) (phi_of x y z)
  | 3 => _211_eq (r_of x y z / 1.0) (theta_of x y z) (phi_of x y z)
  | 4 => _300_eq (r_of x y z / 0.5) (theta_of x y z) (phi_of x y z)
  | 5 => _310_eq (r_of x y z / 0.666666666) (theta_of x y z) (phi_of x y z)
  | 6 => _311_eq (r_of x y z / 0.666666666666) (theta_of x y z) (phi_of x y z)
  | 7 => _320_eq (r_of x y z / 0.4) (theta_of x y z) (phi_of x y z)
  | 8 => _321_eq (r_of x y z / 0.5) (theta_of x y z) (phi_of x y z)
  | _ => _322_eq (r_of x y z / 0.5) (theta_of x y z) (phi_of x y z)

/-- Embeds the sphere-radius mapping: branch 0 computes
`step/1.5f * probDensity/0.31f` (src/main.cpp:413), every other branch
computes `step/1.5f * probDensity` (src/main.cpp:530, 647, 764, 881, 998,
1114, 1230, 1346, 1462). -/
def sphereRadiusOf (b : ℕ) (probDensity : ℝ) : ℝ :=
  if b = 0 then step / 1.5 * probDensity / 0.31 else step / 1.5 * probDensity

/-- Embeds the red-channel mapping: branch 0 computes
`1.0f * (1-probDensity/0.31f)` (src/main.cpp:414), every other branch
computes `1.0f * (1-probDensity)` (src/main.cpp:531 etc.). -/
def sphereColor_red (b : ℕ) (probDensity : ℝ) : ℝ :=
  if b = 0 then 1.0 * (1 - probDensity / 0.31) else 1.0 * (1 - probDensity)

/-- Embeds the green-channel mapping: branch 0 computes
`1.0f * probDensity/0.31f` (src/main.cpp:415), every other branch computes
`1.0f * probDensity` (src/main.cpp:532 etc.). -/
def sphereColor_green (b : ℕ) (probDensity : ℝ) : ℝ :=
  if b = 0 then 1.0 * probDensity / 0.31 else 1.0 * probDensity

/-- Embeds the constant blue channel `0.2f` (src/main.cpp:416 etc.). -/
def sphereColor_blue : ℝ := 0.2

/-- Second, spec-side definition (for the refinement comparison of C5):
`densityNormalized = density` for all states except the ground state, which
additionally divides by its table maximum 0.31 (spec section 4.4). -/
def densityNormalizedSpec (b : ℕ) (density : ℝ) : ℝ :=
  if b = 0 then density / 0.31 else density

/-- Embeds `stackAngle = PI / 2 - i_local * stackStep` with
`stackStep = PI / stackCount` (src/main.cpp:433, 438). -/
def stackAngle (i : ℕ) : ℝ := PI / 2 - i * (PI / stackCount)

/-- Embeds `sectorAngle = j_local * sectorStep` with
`sectorStep = 2 * PI / sectorCount` (src/main.cpp:432, 445). -/
def sectorAngle (j : ℕ) : ℝ := j * (2 * PI / sectorCount)

/-- The local (center-relative) position of mesh vertex `(i, j)`:
`xy_local = sphereRadius * cosf(stackAngle)`,
`z_local = sphereRadius * sinf(stackAngle)`,
`x_local = xy_local * cosf(sectorAngle)`,
`y_local = xy_local * sinf(sectorAngle)` (src/main.cpp:439-449). -/
def sphereVertexLocal (rad : ℝ) (i j : ℕ) : ℝ × ℝ × ℝ :=
  (rad * Real.cos (stackAngle i) * Real.cos (sectorAngle j),
   rad * Real.cos (stackAngle i) * Real.sin (sectorAngle j),
   rad * Real.sin (stackAngle i))

/-- The world position of mesh vertex `(i, j)`: local position plus the
instance center (src/main.cpp:451-453). -/
def sphereVertexWorld (cx cy cz rad : ℝ) (i j : ℕ) : ℝ × ℝ × ℝ :=
  ((sphereVertexLocal rad i j).1 + cx,
   (sphereVertexLocal rad i j).2.1 + cy,
   (sphereVertexLocal rad i j).2.2 + cz)

/-- The stored normal of mesh vertex `(i, j)`: local position times
`lengthInv = 1.0f / sphereRadius` (src/main.cpp:429, 456-458). -/
def sphereNormalAt (rad : ℝ) (i j : ℕ) : ℝ × ℝ × ℝ :=
  ((sphereVertexLocal rad i j).1 * (1.0 / rad),
   (sphereVertexLocal rad i j).2.1 * (1.0 / rad),
   (sphereVertexLocal rad i j).2.2 * (1.0 / rad))

/-- The positions pushed into `sphereVertices` by the tessellation loop
(src/main.cpp:436-469): `i_local` in `[0, stackCount]`, `j_local` in
`[0, sectorCount]`. -/
def sphereVertices (cx cy cz rad : ℝ) : List (ℝ × ℝ × ℝ) :=
  (List.range (stackCount + 1)).flatMap fun i =>
    (List.range (sectorCount + 1)).map fun j => sphereVertexWorld cx cy cz rad i j

/-- Embeds the interleave loop building `completeSphereVertexVec`
(src/main.cpp:473-494): for each of the 100 vertices, in tessellation
order, 3 position floats, 3 color floats, the two `0.0f` texcoords, then
the 3 normal floats. -/
def completeSphereVertexVec (cx cy cz rad red green blue : ℝ) : List ℝ :=
  (List.range (stackCount + 1)).flatMap fun i =>
    (List.range (sectorCount + 1)).flatMap fun j =>
      [(sphereVertexWorld cx cy cz rad i j).1,
       (sphereVertexWorld cx cy cz rad i j).2.1,
       (sphereVertexWorld cx cy cz rad i j).2.2,
       red, green, blue, 0.0, 0.0,
       (sphereNormalAt rad i j).1,
       (sphereNormalAt rad i j).2.1,
       (sphereNormalAt rad i j).2.2]

/-- One grid cell's interleaved vertex record list for branch `b` at grid
indices `(i, j, k)`: center, spherical coordinates, density, then radius
and colors feeding the tessellation (src/main.cpp:394-498 and the nine
copy-pasted later branches). -/
def instanceVertexVec (b : ℕ) (i j k : ℕ) : List ℝ :=
  completeSphereVertexVec (gridCoord i) (gridCoord j) (gridCoord k)
    (sphereRadiusOf b (branchDensityAt b (gridCoord i) (gridCoord j) (gridCoord k)))
    (sphereColor_red b (branchDensityAt b (gridCoord i) (gridCoord j) (gridCoord k)))
    (sphereColor_green b (branchDensityAt b (gridCoord i) (gridCoord j) (gridCoord k)))
    sphereColor_blue

/-- Embeds `allSpheres_VertexVec`: one complete vertex record list pushed
per grid cell, in grid-traversal order, outer `i`, middle `j`, inner `k`
(src/main.cpp:380, 394-498). -/
def allSpheres_VertexVec (b : ℕ) : List (List ℝ) :=
  (List.range numSpheres_per_side).flatMap fun i =>
    (List.range numSpheres_per_side).flatMap fun j =>
      (List.range numSpheres_per_side).map fun k => instanceVertexVec b i j k

/-- Embeds the flattening copy into `allSpheres_VertexArr`
(src/main.cpp:1567-1573). -/
def allSpheres_VertexArr (b : ℕ) : List ℝ := (allSpheres_VertexVec b).flatten

/-- The geometry `main` produces after validation: `none` on either
terminal validation failure (src/main.cpp:338-341, 1559-1562), otherwise
the aggregate vertex and index buffers of the accepted branch. -/
def mainGeometry (n l ml : ℤ) : Option (List ℝ × List ℕ) :=
  match classify n l ml with
  | RunResult.geometry b => some (allSpheres_VertexArr b, allSpheres_IndicesArr numSpheres)
  | _ => none

end

end HydrogenSim

namespace HydrogenSim

set_option maxRecDepth 10000

/-- Helper: the dispatch chain after a passing validation never yields the
invalid outcome. -/
theorem classify_ne_invalid (n l ml : ℤ) (h : ¬(l + 1 > n ∨ |ml| > |l| ∨ l < 0)) :
    classify n l ml ≠ RunResult.invalidQuantumState := by
  unfold classify
  rw [if_neg h]
  repeat' split
  all_goals simp

/-- C1: validation rejects exactly the physically invalid triples, this check
runs before the supported-state dispatch so that input (2,1,2) fails as
InvalidQuantumState (not UnsupportedQuantumState), and on either failure no
geometry is produced. -/
theorem C1_validation :
    (∀ n l ml : ℤ,
      classify n l ml = RunResult.invalidQuantumState ↔ (l < 0 ∨ l + 1 > n ∨ |ml| > |l|)) ∧
    classify 2 1 2 = RunResult.invalidQuantumState ∧
    (∀ n l ml : ℤ,
      classify n l ml = RunResult.invalidQuantumState ∨
        classify n l ml = RunResult.unsupportedQuantumState →
      mainGeometry n l ml = none) := by
  refine ⟨?_, by decide, ?_⟩
  · intro n l ml
    by_cases h : l + 1 > n ∨ |ml| > |l| ∨ l < 0
    · refine iff_of_true ?_ (by tauto)
      unfold classify
      rw [if_pos h]
    · exact iff_of_false (classify_ne_invalid n l ml h) (by tauto)
  · intro n l ml h
    rcases h with h | h <;> simp [mainGeometry, h]

/-- Witness for C1 at the concrete input (2,1,2). -/
theorem C1_validation_witness : mainGeometry 2 1 2 = none :=
  C1_validation.2.2 2 1 2 (Or.inl C1_validation.2.1)

/-- Helper: every lookup into the local index list (default 0) is at
most 98. -/
theorem singleSphere_getD_le (i : ℕ) : singleSphere_IndicesVec.getD i 0 ≤ 98 := by
  rw [List.getD_eq_getElem?_getD]
  rcases h : singleSphere_IndicesVec[i]? with _ | y
  · simp
  · have hy : y ∈ singleSphere_IndicesVec := by
      have := List.getElem?_eq_some_iff.mp h
      obtain ⟨hlt, hget⟩ := this
      exact hget ▸ List.getElem_mem hlt
    have hall : ∀ z ∈ singleSphere_IndicesVec, z ≤ 98 := by decide
    simpa using hall y hy

/-- C2: aggregate index entry p is the local entry at p mod localLength plus
100 times the instance number p div localLength; the local maximum is 98, so
every emitted index is strictly below instanceCount x 100. -/
theorem C2_index_offsets (count : ℕ) :
    (∀ p, p < count * singleSphere_IndicesVec.length →
      (allSpheres_IndicesArr count).getD p 0 =
        singleSphere_IndicesVec.getD (p % singleSphere_IndicesVec.length) 0 +
          100 * (p / singleSphere_IndicesVec.length)) ∧
    (∀ y ∈ singleSphere_IndicesVec, y ≤ 98) ∧
    98 ∈ singleSphere_IndicesVec ∧
    (∀ x ∈ allSpheres_IndicesArr count, x < count * 100) := by
  refine ⟨?_, by decide, by decide, ?_⟩
  · intro p hp
    unfold allSpheres_IndicesArr
    rw [List.getD_eq_getElem?_getD, List.getElem?_map, List.getElem?_range hp]
    rfl
  · intro x hx
    unfold allSpheres_IndicesArr at hx
    rw [List.mem_map] at hx
    obtain ⟨p, hp, rfl⟩ := hx
    rw [List.mem_range] at hp
    have h1 : singleSphere_IndicesVec.getD (p % singleSphere_IndicesVec.length) 0 ≤ 98 :=
      singleSphere_getD_le _
    have hlen : singleSphere_IndicesVec.length = 432 := by decide
    rw [hlen] at hp
    have h2 : p / singleSphere_IndicesVec.length < count := by
      rw [hlen]
      exact Nat.div_lt_iff_lt_mul (by norm_num) |>.mpr hp
    unfold NUM_VERTICES_PER_SPHERE
    omega

/-- Witness for C2 with two instances, at aggregate position 433 and the
emitted index 110. -/
theorem C2_index_offsets_witness :
    (allSpheres_IndicesArr 2).getD 433 0 =
      singleSphere_IndicesVec.getD (433 % singleSphere_IndicesVec.length) 0 +
        100 * (433 / singleSphere_IndicesVec.length) ∧
    (110 : ℕ) < 2 * 100 :=
  ⟨(C2_index_offsets 2).1 433 (by decide),
   (C2_index_offsets 2).2.2.2 110 (by decide)⟩

/-- Helper: the squared magnitude of a local mesh vertex is the squared
radius (latitude/longitude tessellation, Pythagorean identities). -/
theorem sphereVertexLocal_normSq (rad : ℝ) (i j : ℕ) :
    (sphereVertexLocal rad i j).1 ^ 2 + (sphereVertexLocal rad i j).2.1 ^ 2 +
      (sphereVertexLocal rad i j).2.2 ^ 2 = rad ^ 2 := by
  have hu : Real.cos (stackAngle i) ^ 2 + Real.sin (stackAngle i) ^ 2 = 1 :=
    Real.cos_sq_add_sin_sq _
  have hv : Real.cos (sectorAngle j) ^ 2 + Real.sin (sectorAngle j) ^ 2 = 1 :=
    Real.cos_sq_add_sin_sq _
  unfold sphereVertexLocal
  linear_combination (rad ^ 2 * Real.cos (stackAngle i) ^ 2) * hv + rad ^ 2 * hu

/-- Helper: the (i,j) world vertex is an element of the emitted vertex
list. -/
theorem sphereVertexWorld_mem (cx cy cz rad : ℝ) (i j : ℕ)
    (hi : i < stackCount + 1) (hj : j < sectorCount + 1) :
    sphereVertexWorld cx cy cz rad i j ∈ sphereVertices cx cy cz rad := by
  simp only [sphereVertices, List.mem_flatMap, List.mem_map, List.mem_range]
  exact ⟨i, hi, j, hj, rfl⟩

/-- C3: the tessellation emits exactly 100 vertices, each one at the stated
lat/long position and at Euclidean distance abs rad from the center, and the
local index list holds 3 x 144 entries, i.e. 144 triangles after the
pole-degenerate ones are dropped. -/
theorem C3_sphere_mesh (cx cy cz rad : ℝ) :
    (sphereVertices cx cy cz rad).length = 100 ∧
    (∀ i j : ℕ, sphereVertexWorld cx cy cz rad i j =
      (cx + rad * Real.cos (stackAngle i) * Real.cos (sectorAngle j),
       cy + rad * Real.cos (stackAngle i) * Real.sin (sectorAngle j),
       cz + rad * Real.sin (stackAngle i))) ∧
    (∀ v ∈ sphereVertices cx cy cz rad,
      Real.sqrt ((v.1 - cx) ^ 2 + (v.2.1 - cy) ^ 2 + (v.2.2 - cz) ^ 2) = |rad|) ∧
    singleSphere_IndicesVec.length = 3 * NUM_TRIANGLES_PER_SPHERE ∧
    NUM_TRIANGLES_PER_SPHERE = 144 := by
  refine ⟨rfl, ?_, ?_, by decide, rfl⟩
  · intro i j
    unfold sphereVertexWorld sphereVertexLocal
    refine Prod.ext (by ring) (Prod.ext (by ring) (by ring))
  · intro v hv
    simp only [sphereVertices, List.mem_flatMap, List.mem_map, List.mem_range] at hv
    obtain ⟨i, hi, j, hj, rfl⟩ := hv
    have key := sphereVertexLocal_normSq rad i j
    simp only [sphereVertexWorld, add_sub_cancel_right]
    rw [key, Real.sqrt_sq_eq_abs]

/-- Witness for C3 at center (0,0,0), radius 1, vertex (0,0). -/
theorem C3_sphere_mesh_witness :
    Real.sqrt (((sphereVertexWorld 0 0 0 1 0 0).1 - 0) ^ 2 +
      ((sphereVertexWorld 0 0 0 1 0 0).2.1 - 0) ^ 2 +
      ((sphereVertexWorld 0 0 0 1 0 0).2.2 - 0) ^ 2) = |(1 : ℝ)| :=
  (C3_sphere_mesh 0 0 0 1).2.2.1 _
    (sphereVertexWorld_mem 0 0 0 1 0 0 (by norm_num) (by norm_num))

/-- Helper: the grid step 10/(11-1) is exactly 1. -/
theorem step_eq_one : step = 1 := by
  unfold step numSpheres_per_side
  norm_num

/-- C4: the sampler produces exactly 11^3 = 1331 grid centers, step is
10/10 = 1, each coordinate is -5 + index * step, all centers lie in the
closed cube [-5,5]^3 and both boundary faces are hit. -/
theorem C4_sampler :
    gridCenters.length = 11 ^ 3 ∧
    step = 10.0 / 10 ∧ step = 1.0 ∧
    (∀ i : ℕ, gridCoord i = -5.0 + i * step) ∧
    (∀ i : ℕ, i < 11 → -5 ≤ gridCoord i ∧ gridCoord i ≤ 5) ∧
    gridCoord 0 = -5 ∧ gridCoord 10 = 5 := by
  refine ⟨rfl, by rw [step_eq_one]; norm_num, by rw [step_eq_one]; norm_num, ?_, ?_, ?_, ?_⟩
  · intro i; unfold gridCoord; norm_num
  · intro i hi
    have hic : (i : ℝ) ≤ 10 := by exact_mod_cast Nat.lt_succ_iff.mp (by omega)
    have hic0 : (0 : ℝ) ≤ (i : ℝ) := Nat.cast_nonneg i
    unfold gridCoord
    rw [step_eq_one]
    constructor <;> linarith
  · unfold gridCoord; rw [step_eq_one]; norm_num
  · unfold gridCoord; rw [step_eq_one]; norm_num

/-- Witness for C4 at index 7. -/
theorem C4_sampler_witness : -5 ≤ gridCoord 7 ∧ gridCoord 7 ≤ 5 :=
  C4_sampler.2.2.2.2.1 7 (by norm_num)

/-- C5: for every supported branch and every density value, radius and
color equal the claimed formulas in terms of densityNormalized (divide by
0.31 exactly on the ground-state branch), blue is the constant 0.2, and no
clamping happens: a density driving densityNormalized over 1 yields green
over 1 and red below 0. -/
theorem C5_mapper (b : ℕ) (hb : b < 10) (d : ℝ) :
    sphereRadiusOf b d = step / 1.5 * densityNormalizedSpec b d ∧
    sphereColor_red b d = 1 - densityNormalizedSpec b d ∧
    sphereColor_green b d = densityNormalizedSpec b d ∧
    sphereColor_blue = 0.2 ∧
    densityNormalizedSpec b d = (if b = 0 then d / 0.31 else d) ∧
    (1 < densityNormalizedSpec b d → 1 < sphereColor_green b d ∧ sphereColor_red b d < 0) := by
  unfold sphereRadiusOf sphereColor_red sphereColor_green sphereColor_blue densityNormalizedSpec
  split_ifs with h
  · have hg : (1.0 : ℝ) * d / 0.31 = d / 0.31 := by ring
    have hr : (1.0 : ℝ) * (1 - d / 0.31) = 1 - d / 0.31 := by ring
    exact ⟨by ring, by ring, by ring, rfl, rfl,
      fun hgt => ⟨by rw [hg]; exact hgt, by rw [hr]; linarith⟩⟩
  · have hg : (1.0 : ℝ) * d = d := by ring
    have hr : (1.0 : ℝ) * (1 - d) = 1 - d := by ring
    exact ⟨by ring, by ring, by ring, rfl, rfl,
      fun hgt => ⟨by rw [hg]; exact hgt, by rw [hr]; linarith⟩⟩

/-- Witness for C5 on branch 2 with density 7. -/
theorem C5_mapper_witness :
    sphereRadiusOf 2 7 = step / 1.5 * densityNormalizedSpec 2 7 ∧
    sphereColor_red 2 7 = 1 - densityNormalizedSpec 2 7 ∧
    sphereColor_green 2 7 = densityNormalizedSpec 2 7 :=
  ⟨(C5_mapper 2 (by norm_num) 7).1, (C5_mapper 2 (by norm_num) 7).2.1,
   (C5_mapper 2 (by norm_num) 7).2.2.1⟩

/-- Helper: a list of lists all of length m flattens to length times m. -/
theorem flatten_length_const {α : Type} (L : List (List α)) (m : ℕ)
    (h : ∀ x ∈ L, x.length = m) : L.flatten.length = L.length * m := by
  induction L with
  | nil => simp
  | cons a L ih =>
    simp only [List.flatten_cons, List.length_append, List.length_cons]
    rw [h a (List.mem_cons_self a L), ih (fun x hx => h x (List.mem_cons_of_mem a hx))]
    ring

/-- Helper: each instance record list holds 100 x 11 floats. -/
theorem instanceVertexVec_length (b i j k : ℕ) : (instanceVertexVec b i j k).length = 1100 := rfl

/-- Helper: there are 11^3 = 1331 instance record lists. -/
theorem allSpheres_VertexVec_length (b : ℕ) : (allSpheres_VertexVec b).length = 1331 := rfl

/-- Helper: every member of the vertex vector-of-vectors has length 1100. -/
theorem allSpheres_VertexVec_mem_length (b : ℕ) :
    ∀ inst ∈ allSpheres_VertexVec b, inst.length = 1100 := by
  intro inst hinst
  simp only [allSpheres_VertexVec, List.mem_flatMap, List.mem_map, List.mem_range] at hinst
  obtain ⟨i, _, j, _, k, _, rfl⟩ := hinst
  exact instanceVertexVec_length b i j k

/-- Amended C6: the aggregate vertex array has exactly N x 100 x 11 floats
(N = 1331 instances of 100 interleaved 11-value records in grid traversal
order), and the aggregate index array has exactly N x 432 entries, i.e.
three indices for each of the 144 triangles per instance. -/
theorem C6_aggregation (b : ℕ) (hb : b < 10) :
    (allSpheres_VertexArr b).length = numSpheres * 100 * 11 ∧
    (∀ inst ∈ allSpheres_VertexVec b, inst.length = 100 * 11) ∧
    (allSpheres_VertexVec b).length = numSpheres ∧
    (allSpheres_IndicesArr numSpheres).length = numSpheres * (3 * 144) := by
  refine ⟨?_, ?_, allSpheres_VertexVec_length b, ?_⟩
  · unfold allSpheres_VertexArr
    rw [flatten_length_const (allSpheres_VertexVec b) 1100 (allSpheres_VertexVec_mem_length b),
      allSpheres_VertexVec_length]
    norm_num [numSpheres]
  · intro inst hinst
    rw [allSpheres_VertexVec_mem_length b inst hinst]
  · unfold allSpheres_IndicesArr
    rw [List.length_map, List.length_range,
      show singleSphere_IndicesVec.length = 432 by decide]

/-- Witness for amended C6 on branch 0. -/
theorem C6_aggregation_witness :
    (allSpheres_VertexArr 0).length = numSpheres * 100 * 11 ∧
    (allSpheres_IndicesArr numSpheres).length = numSpheres * (3 * 144) :=
  ⟨(C6_aggregation 0 (by norm_num)).1, (C6_aggregation 0 (by norm_num)).2.2.2⟩

/-- Counterexample to C6 as stated: the aggregate index array does not have
N x 144 entries; it has N x 432 (three per triangle). -/
theorem C6_counterexample :
    ¬ (allSpheres_IndicesArr numSpheres).length = numSpheres * 144 := by
  unfold allSpheres_IndicesArr
  rw [List.length_map, List.length_range,
    show singleSphere_IndicesVec.length = 432 by decide]
  norm_num [numSpheres]

/-- Amended C7: the stored normal is the local position times 1/radius, the
local position always has magnitude abs radius, and whenever the radius is
nonzero the normal is a unit vector. -/
theorem C7_normals (rad : ℝ) (h : rad ≠ 0) (i j : ℕ) :
    sphereNormalAt rad i j =
      ((sphereVertexLocal rad i j).1 * (1.0 / rad),
       (sphereVertexLocal rad i j).2.1 * (1.0 / rad),
       (sphereVertexLocal rad i j).2.2 * (1.0 / rad)) ∧
    Real.sqrt ((sphereVertexLocal rad i j).1 ^ 2 + (sphereVertexLocal rad i j).2.1 ^ 2 +
      (sphereVertexLocal rad i j).2.2 ^ 2) = |rad| ∧
    Real.sqrt ((sphereNormalAt rad i j).1 ^ 2 + (sphereNormalAt rad i j).2.1 ^ 2 +
      (sphereNormalAt rad i j).2.2 ^ 2) = 1 := by
  refine ⟨rfl, ?_, ?_⟩
  · rw [sphereVertexLocal_normSq, Real.sqrt_sq_eq_abs]
  · have key := sphereVertexLocal_normSq rad i j
    have hsum : (sphereNormalAt rad i j).1 ^ 2 + (sphereNormalAt rad i j).2.1 ^ 2 +
        (sphereNormalAt rad i j).2.2 ^ 2 = rad ^ 2 * (1.0 / rad) ^ 2 := by
      unfold sphereNormalAt
      linear_combination (1.0 / rad) ^ 2 * key
    rw [hsum, show rad ^ 2 * (1.0 / rad) ^ 2 = 1 by
      rw [show (1.0 : ℝ) = 1 by norm_num]; field_simp]
    exact Real.sqrt_one

/-- Witness for amended C7 at radius 1, vertex (0,0). -/
theorem C7_normals_witness :
    sphereNormalAt 1 0 0 =
      ((sphereVertexLocal 1 0 0).1 * (1.0 / 1),
       (sphereVertexLocal 1 0 0).2.1 * (1.0 / 1),
       (sphereVertexLocal 1 0 0).2.2 * (1.0 / 1)) ∧
    Real.sqrt ((sphereVertexLocal 1 0 0).1 ^ 2 + (sphereVertexLocal 1 0 0).2.1 ^ 2 +
      (sphereVertexLocal 1 0 0).2.2 ^ 2) = |(1 : ℝ)| ∧
    Real.sqrt ((sphereNormalAt 1 0 0).1 ^ 2 + (sphereNormalAt 1 0 0).2.1 ^ 2 +
      (sphereNormalAt 1 0 0).2.2 ^ 2) = 1 :=
  C7_normals 1 (by norm_num) 0 0

/-- Helper: the grid coordinate at index 10 is 5. -/
theorem gridCoord_ten : gridCoord 10 = 5 := by
  unfold gridCoord; rw [step_eq_one]; norm_num

/-- Helper: the grid coordinate at index 5 is 0. -/
theorem gridCoord_five : gridCoord 5 = 0 := by
  unfold gridCoord; rw [step_eq_one]; norm_num

/-- Helper: r_of at (5,0,0) is 5. -/
theorem r_of_five : r_of 5 0 0 = 5 := by
  unfold r_of
  rw [show (5 * 5 + 0 * 0 + 0 * 0 : ℝ) = 5 ^ 2 by norm_num, Real.sqrt_sq (by norm_num)]

/-- Helper: the (2,0,0) branch density at the grid cell (10,5,5), center
(5,0,0), is exactly 0: the rescaled radius is 2 and the radial factor
(2 - r) vanishes. -/
theorem density_200_at_boundary :
    branchDensityAt 1 (gridCoord 10) (gridCoord 5) (gridCoord 5) = 0 := by
  rw [gridCoord_ten, gridCoord_five]
  show _200_eq (r_of 5 0 0 / 2.5) (theta_of 5 0 0) (phi_of 5 0 0) = 0
  rw [r_of_five]
  unfold _200_eq
  norm_num

/-- Counterexample to C7 as stated: the sphere instance of the accepted
state (2,0,0) at grid cell (10,5,5) (center (5,0,0)) has density exactly 0,
hence sphere radius exactly 0, and its stored normal is the zero vector,
not a unit vector. -/
theorem C7_counterexample :
    sphereRadiusOf 1 (branchDensityAt 1 (gridCoord 10) (gridCoord 5) (gridCoord 5)) = 0 ∧
    ¬ Real.sqrt
        ((sphereNormalAt (sphereRadiusOf 1
            (branchDensityAt 1 (gridCoord 10) (gridCoord 5) (gridCoord 5))) 0 0).1 ^ 2 +
         (sphereNormalAt (sphereRadiusOf 1
            (branchDensityAt 1 (gridCoord 10) (gridCoord 5) (gridCoord 5))) 0 0).2.1 ^ 2 +
         (sphereNormalAt (sphereRadiusOf 1
            (branchDensityAt 1 (gridCoord 10) (gridCoord 5) (gridCoord 5))) 0 0).2.2 ^ 2) = 1 := by
  have hrad : sphereRadiusOf 1
      (branchDensityAt 1 (gridCoord 10) (gridCoord 5) (gridCoord 5)) = 0 := by
    rw [density_200_at_boundary]
    unfold sphereRadiusOf
    norm_num
  refine ⟨hrad, ?_⟩
  rw [hrad]
  unfold sphereNormalAt sphereVertexLocal
  norm_num

/-- Helper: a grid coordinate is 0 exactly at index 5. -/
theorem gridCoord_eq_zero_iff (i : ℕ) : gridCoord i = 0 ↔ i = 5 := by
  unfold gridCoord
  rw [step_eq_one]
  constructor
  · intro h
    have : (i : ℝ) = 5 := by linarith
    exact_mod_cast this
  · rintro rfl
    norm_num

/-- C8: exactly one grid cell (i = j = k = 5) has its center at the origin;
there r_of returns 0, so theta_of computes acos of the division-by-zero
form z / 0, and that theta value is the one handed to the evaluator. -/
theorem C8_origin_sample :
    (∀ i j k : ℕ, i < 11 → j < 11 → k < 11 →
      ((gridCoord i, gridCoord j, gridCoord k) = ((0 : ℝ), (0 : ℝ), (0 : ℝ)) ↔
        (i = 5 ∧ j = 5 ∧ k = 5))) ∧
    r_of 0 0 0 = 0 ∧
    theta_of 0 0 0 = Real.arccos ((0 : ℝ) / 0) ∧
    branchDensityAt 0 0 0 0 =
      _100_eq (r_of 0 0 0 / 5.0) (theta_of 0 0 0) (phi_of 0 0 0) := by
  refine ⟨?_, ?_, ?_, rfl⟩
  · intro i j k hi hj hk
    simp only [Prod.mk.injEq]
    rw [gridCoord_eq_zero_iff, gridCoord_eq_zero_iff, gridCoord_eq_zero_iff]
  · unfold r_of
    norm_num
  · unfold theta_of
    norm_num

/-- Witness for C8 at the origin cell (5,5,5). -/
theorem C8_origin_sample_witness :
    (gridCoord 5, gridCoord 5, gridCoord 5) = ((0 : ℝ), (0 : ℝ), (0 : ℝ)) ↔
      (5 = 5 ∧ 5 = 5 ∧ 5 = 5) :=
  C8_origin_sample.1 5 5 5 (by norm_num) (by norm_num) (by norm_num)

/-- C9: the ground-state evaluator at r = 0, theta = pi/2, phi = 0 returns
(1/normConst)^2 * (1/pi) with normConst = 1, i.e. exactly 1/pi. -/
theorem C9_ground_state_value :
    _100_eq 0 (PI / 2) 0 = (1 / 1) ^ 2 * (1 / PI) ∧ _100_eq 0 (PI / 2) 0 = 1 / PI := by
  have h : _100_eq 0 (PI / 2) 0 = 1 / PI := by
    unfold _100_eq PI
    rw [neg_zero, Real.exp_zero]
    rw [show (1 : ℝ) / (1.0 * (10 : ℝ) ^ (0 : ℕ)) * 1 / Real.sqrt Real.pi =
      1 / Real.sqrt Real.pi by norm_num]
    rw [div_pow, one_pow, Real.sq_sqrt Real.pi_pos.le]
  exact ⟨by rw [h]; ring, h⟩

/-- Helper: every branch density is a square, hence non-negative. -/
theorem branchDensityAt_nonneg (b : ℕ) (x y z : ℝ) : 0 ≤ branchDensityAt b x y z := by
  rcases b with _ | _ | _ | _ | _ | _ | _ | _ | _ | b
  all_goals exact sq_nonneg _

/-- C10: every one of the ten density evaluators returns a square, hence a
non-negative real, for all inputs; consequently on every branch and at
every sample point the mapped red channel is at most 1 and the mapped green
channel is at least 0 (out-of-range values can only be green above 1 or red
below 0). -/
theorem C10_density_nonneg :
    (∀ r theta phi : ℝ,
      0 ≤ _100_eq r theta phi ∧ 0 ≤ _200_eq r theta phi ∧ 0 ≤ _210_eq r theta phi ∧
      0 ≤ _211_eq r theta phi ∧ 0 ≤ _300_eq r theta phi ∧ 0 ≤ _310_eq r theta phi ∧
      0 ≤ _311_eq r theta phi ∧ 0 ≤ _320_eq r theta phi ∧ 0 ≤ _321_eq r theta phi ∧
      0 ≤ _322_eq r theta phi) ∧
    (∀ b : ℕ, b < 10 → ∀ x y z : ℝ,
      sphereColor_red b (branchDensityAt b x y z) ≤ 1 ∧
      0 ≤ sphereColor_green b (branchDensityAt b x y z)) := by
  constructor
  · intro r theta phi
    exact ⟨sq_nonneg _, sq_nonneg _, sq_nonneg _, sq_nonneg _, sq_nonneg _,
      sq_nonneg _, sq_nonneg _, sq_nonneg _, sq_nonneg _, sq_nonneg _⟩
  · intro b hb x y z
    have hd : 0 ≤ branchDensityAt b x y z := branchDensityAt_nonneg b x y z
    unfold sphereColor_red sphereColor_green
    rw [show (1.0 : ℝ) = 1 by norm_num]
    split_ifs with h
    · have hdn : 0 ≤ branchDensityAt b x y z / 0.31 := by positivity
      rw [one_mul, one_mul]
      exact ⟨by linarith, hdn⟩
    · rw [one_mul, one_mul]
      exact ⟨by linarith, hd⟩

/-- Witness for C10 on branch 0 at the point (1,1,1). -/
theorem C10_density_nonneg_witness :
    sphereColor_red 0 (branchDensityAt 0 1 1 1) ≤ 1 ∧
    0 ≤ sphereColor_green 0 (branchDensityAt 0 1 1 1) :=
  C10_density_nonneg.2 0 (by norm_num) 1 1 1

end HydrogenSim
